import Mathlib

/-!
Verification development for the visual target-localization engine
(template_matching.py) and the retry/scroll action orchestrators
(like_action.py, ai_comment_action.py, retweet_action.py, follow_action.py).

The locator is modelled over the correlation surface produced by the external
matching primitive (cv2.matchTemplate with TM_CCOEFF_NORMED): the surface is a
list of offsets, each carrying a rational confidence value; TM_CCOEFF_NORMED
yields values in the interval from -1 to 1.  The image-read failure branches
(SCREENSHOT_ERROR / TEMPLATE_ERROR) occur before the surface exists and the
claims below are restricted to readable images, so the model starts from the
surface.

Each orchestrator is modelled as a pure function of a World: an oracle giving
the result of every external device call (open_url, take_screenshot, template
matching, tap, input_text, comment generation), indexed by the occurrence
number of the call.  Besides the returned record, the model emits the list of
external calls performed (the trace), used for the temporal claims.
-/

namespace TM

/-- One offset of the correlation surface: its pixel position in the
screenshot (top-left corner of the template placement, row `y`, column `x`)
and the correlation value there.  The surface list is taken in the row-major
order that `np.where` traverses. -/
structure SurfPt where
  y : Nat
  x : Nat
  conf : ℚ
deriving DecidableEq, Repr

/-- A detected candidate: center coordinates and confidence, the tuple
`(x, y, conf)` built in `find_button`. -/
structure Cand where
  x : Nat
  y : Nat
  conf : ℚ
deriving DecidableEq, Repr

/-- `THRESHOLD = 0.65` from template_matching.py. -/
def THRESHOLD : ℚ := 65 / 100

/-- Result dictionary of `find_button` (readable-images case): `success=True`
with center and confidence and the post-dedup candidate count, or
`success=False, error=NOT_FOUND` with the maximal correlation value. -/
inductive FindResult where
  | found (x y : Nat) (conf : ℚ) (count : Nat)
  | notFound (bestConfidence : ℚ)
deriving DecidableEq, Repr

/-- `cv2.minMaxLoc` maximum over the surface values. -/
def surfMax : List SurfPt → ℚ
  | [] => 0
  | p :: ps => ps.foldl (fun acc q => max acc q.conf) p.conf

/-- Candidate center from a surface offset:
`x = pt_x + template_width / 2`, `y = pt_y + template_height / 2`
(integer division, as in Python). -/
def center (tw th : Nat) (p : SurfPt) : Cand :=
  ⟨p.x + tw / 2, p.y + th / 2, p.conf⟩

/-- `locations = np.where(result >= THRESHOLD)` followed by the list-building
loop: every offset whose confidence reaches the threshold, as a candidate. -/
def candidates (tw th : Nat) (s : List SurfPt) : List Cand :=
  (s.filter fun p => THRESHOLD ≤ p.conf).map (center tw th)

/-- Stable insertion keyed on the vertical coordinate only. -/
def insertY (c : Cand) : List Cand → List Cand
  | [] => [c]
  | d :: ds => if c.y ≤ d.y then c :: d :: ds else d :: insertY c ds

/-- `sorted(matches, key=lambda x: x[1])`: stable sort by vertical center. -/
def sortByY : List Cand → List Cand
  | [] => []
  | c :: cs => insertY c (sortByY cs)

/-- The duplicate test of the dedup loop: some already-kept entry has a
vertical center less than 50 px away. -/
def isDup (filtered : List Cand) (m : Cand) : Bool :=
  filtered.any fun f => Nat.dist m.y f.y < 50

/-- The dedup loop: scan the sorted candidates, keep an entry only when no
already-kept entry is vertically within 50 px. -/
def dedupAux (filtered : List Cand) : List Cand → List Cand
  | [] => filtered
  | m :: ms =>
    if isDup filtered m then dedupAux filtered ms
    else dedupAux (filtered ++ [m]) ms

/-- The deduplicated candidate set (`filtered` in the source). -/
def dedupMatches (l : List Cand) : List Cand :=
  dedupAux [] (sortByY l)

/-- The DistinctCandidates of a surface: threshold, take centers, sort by the
vertical coordinate, deduplicate. -/
def distinctCandidates (tw th : Nat) (s : List SurfPt) : List Cand :=
  dedupMatches (candidates tw th s)

/-- Python `max(filtered, key=lambda x: x[2])` over `c :: l`: the first
entry of maximal confidence wins (strict improvement replaces). -/
def pyMaxConf (c : Cand) (l : List Cand) : Cand :=
  l.foldl (fun best d => if best.conf < d.conf then d else best) c

/-- `find_button` on a readable screenshot/template pair, starting from the
correlation surface `s`; `tw`/`th` are the template's width and height and
`select_topmost` the selection policy.  The empty-DistinctCandidates inner
branch is unreachable (the dedup loop always keeps the first sorted
candidate); Python would raise there, the model returns a dummy. -/
def find_button (s : List SurfPt) (tw th : Nat) (select_topmost : Bool) :
    FindResult :=
  if candidates tw th s = [] then .notFound (surfMax s)
  else
    match distinctCandidates tw th s with
    | [] => .notFound 0
    | f :: fs =>
      let sel := if select_topmost then f else pyMaxConf f fs
      .found sel.x sel.y sel.conf (fs.length + 1)

end TM

/-- One external call of an orchestrator run, in order of occurrence. -/
inductive Event where
  | openUrl (url : String)
  | sleep (secs : Nat)
  | screenshot (path : String)
  | locate (control : String)
  | tap (x y : Int)
  | scrollDown
  | inputText (text : String)
  | generateComment
deriving DecidableEq, Repr

/-- What one `find_*_button` call reports to an orchestrator: the dictionary
with `success=True` and center plus confidence, or `success=False` carrying
the best-confidence diagnostic (which the orchestrators ignore). -/
inductive MatchResult where
  | ok (x y : Int) (confidence : ℚ)
  | fail (confidence : ℚ)
deriving DecidableEq, Repr

/-- Oracle for the external collaborator calls of one action run, indexed by
the occurrence number of each kind of call. -/
structure World where
  open_url_ok : Bool
  screenshot_ok : Nat → Bool
  match_result : Nat → MatchResult
  tap_ok : Nat → Bool
  input_text_ok : Bool
  gen_comment : Option String

/-- The result dictionary of an action entry point.  A field the returned
Python dict does not contain is `none`. -/
structure ActionOutcome where
  success : Bool
  error : Option String := none
  x : Option Int := none
  y : Option Int := none
  confidence : Option ℚ := none
  retry_count : Option Nat := none
  comment : Option String := none
  target_username : Option String := none
  debug_screenshot : Option String := none
deriving DecidableEq, Repr

/-- How the screenshot/matching retry loop ends: button found (with the
coordinates, confidence and the `retry_count` value), or loop exhausted
(with the final `retry_count` and the `confidence` variable, which the loop
only assigns in its success branch). -/
inductive LoopOut where
  | found (x y : Int) (confidence : ℚ) (retry_count : Nat)
  | exhausted (retry_count : Nat) (confidence : ℚ)
deriving DecidableEq, Repr

/-- State returned by the retry loop: its outcome, the calls it made, and the
number of screenshot and matching calls consumed so far. -/
structure LoopRes where
  out : LoopOut
  trace : List Event
  shotIdx : Nat
  matchIdx : Nat
deriving Repr

/-- The `for i in range(MAX_RETRY)` screenshot/template-matching loop shared
verbatim by the like, comment and retweet actions: take a screenshot (on
failure, `continue`); run template matching; on success break with the
coordinates; otherwise, when further iterations remain, scroll down and wait
`waitScroll` seconds.  `remaining` is the number of iterations left and `i`
the number already performed, so the Python guard `i < MAX_RETRY - 1` is
`remaining` not yet on its last iteration. -/
def retryLoop (w : World) (control path : String) (waitScroll : Nat) :
    Nat → Nat → Nat → Nat → ℚ → LoopRes
  | 0, i, s, m, conf => ⟨.exhausted i conf, [], s, m⟩
  | remaining + 1, i, s, m, conf =>
    if w.screenshot_ok s then
      match w.match_result m with
      | .ok x y c =>
        ⟨.found x y c (i + 1), [.screenshot path, .locate control], s + 1, m + 1⟩
      | .fail _ =>
        if remaining = 0 then
          ⟨.exhausted (i + 1) conf, [.screenshot path, .locate control], s + 1, m + 1⟩
        else
          let r := retryLoop w control path waitScroll remaining (i + 1) (s + 1) (m + 1) conf
          ⟨r.out, [.screenshot path, .locate control, .scrollDown, .sleep waitScroll] ++ r.trace,
           r.shotIdx, r.matchIdx⟩
    else
      let r := retryLoop w control path waitScroll remaining (i + 1) (s + 1) (m + 1) conf
      ⟨r.out, .screenshot path :: r.trace, r.shotIdx, r.matchIdx⟩

namespace LikeAction

def MAX_RETRY : Nat := 3
def WAIT_AFTER_OPEN : Nat := 10
def WAIT_AFTER_SCROLL : Nat := 2
def TEMP_SCREENSHOT : String := "/tmp/screenshot.png"
def TEMP_SCREENSHOT_AFTER : String := "/tmp/screenshot_after.png"

/-- like_action.py `execute_like`: open the post, wait, run the retry loop
for the like button, tap it, take a best-effort confirmation screenshot. -/
def execute_like (w : World) (post_url : String) : ActionOutcome × List Event :=
  if !w.open_url_ok then
    ({ success := false, error := some "FAILED_TO_OPEN_URL" }, [.openUrl post_url])
  else
    let pre := [Event.openUrl post_url, .sleep WAIT_AFTER_OPEN]
    let r := retryLoop w "like_button" TEMP_SCREENSHOT WAIT_AFTER_SCROLL MAX_RETRY 0 0 0 0
    match r.out with
    | .exhausted rc conf =>
      ({ success := false, error := some "LIKE_BUTTON_NOT_FOUND",
         retry_count := some rc, confidence := some conf }, pre ++ r.trace)
    | .found x y c rc =>
      if !w.tap_ok 0 then
        ({ success := false, error := some "TAP_FAILED", x := some x, y := some y,
           confidence := some c, retry_count := some rc }, pre ++ r.trace ++ [.tap x y])
      else
        ({ success := true, x := some x, y := some y, confidence := some c,
           retry_count := some rc },
         pre ++ r.trace ++ [.tap x y, .sleep 1, .screenshot TEMP_SCREENSHOT_AFTER])

end LikeAction

namespace CommentAction

def MAX_RETRY : Nat := 3
def WAIT_AFTER_OPEN : Nat := 10
def WAIT_AFTER_SCROLL : Nat := 2
def WAIT_AFTER_COMMENT_BUTTON : Nat := 3
def POST_BUTTON_X : Int := 980
def POST_BUTTON_Y : Int := 350
def TEMP_SCREENSHOT : String := "/tmp/screenshot.png"

/-- ai_comment_action.py `execute_ai_comment`: open the post, wait, take the
frame for comment generation, call the generation capability (oracle
`gen_comment`; Python treats `None` and the empty string as failure), then
run the retry loop for the comment button, tap it, input the text and tap the
fixed post button. -/
def execute_ai_comment (w : World) (post_url : String) : ActionOutcome × List Event :=
  if !w.open_url_ok then
    ({ success := false, error := some "FAILED_TO_OPEN_URL" }, [.openUrl post_url])
  else if !w.screenshot_ok 0 then
    ({ success := false, error := some "SCREENSHOT_FAILED" },
     [.openUrl post_url, .sleep WAIT_AFTER_OPEN, .screenshot TEMP_SCREENSHOT])
  else
    let pre := [Event.openUrl post_url, .sleep WAIT_AFTER_OPEN,
                .screenshot TEMP_SCREENSHOT, .generateComment]
    match w.gen_comment with
    | none => ({ success := false, error := some "COMMENT_GENERATION_FAILED" }, pre)
    | some comment =>
      if comment = "" then
        ({ success := false, error := some "COMMENT_GENERATION_FAILED" }, pre)
      else
        let r := retryLoop w "comment_button" TEMP_SCREENSHOT WAIT_AFTER_SCROLL MAX_RETRY 0 1 0 0
        match r.out with
        | .exhausted rc conf =>
          ({ success := false, error := some "COMMENT_BUTTON_NOT_FOUND",
             comment := some comment, retry_count := some rc, confidence := some conf },
           pre ++ r.trace)
        | .found x y c rc =>
          if !w.tap_ok 0 then
            ({ success := false, error := some "TAP_FAILED", comment := some comment,
               x := some x, y := some y }, pre ++ r.trace ++ [.tap x y])
          else if !w.input_text_ok then
            ({ success := false, error := some "INPUT_FAILED", comment := some comment,
               x := some x, y := some y },
             pre ++ r.trace ++ [.tap x y, .sleep WAIT_AFTER_COMMENT_BUTTON, .inputText comment])
          else if !w.tap_ok 1 then
            ({ success := false, error := some "POST_TAP_FAILED", comment := some comment,
               x := some x, y := some y },
             pre ++ r.trace ++ [.tap x y, .sleep WAIT_AFTER_COMMENT_BUTTON,
                                .inputText comment, .sleep 1, .tap POST_BUTTON_X POST_BUTTON_Y])
          else
            ({ success := true, comment := some comment, x := some x, y := some y,
               confidence := some c, retry_count := some rc },
             pre ++ r.trace ++ [.tap x y, .sleep WAIT_AFTER_COMMENT_BUTTON,
                                .inputText comment, .sleep 1, .tap POST_BUTTON_X POST_BUTTON_Y])

end CommentAction

namespace RetweetAction

def MAX_RETRY : Nat := 3
def WAIT_AFTER_OPEN : Nat := 10
def WAIT_AFTER_SCROLL : Nat := 2
def WAIT_AFTER_RETWEET_BUTTON : Nat := 2
def TEMP_SCREENSHOT : String := "/tmp/screenshot_retweet.png"
def TEMP_SCREENSHOT_MENU : String := "/tmp/screenshot_retweet_menu.png"
def TEMP_SCREENSHOT_AFTER : String := "/tmp/screenshot_retweet_after.png"
def REPOST_OPTION_X : Int := 230
def REPOST_OPTION_Y : Int := 1440

/-- retweet_action.py `execute_retweet`: open the post, wait, run the retry
loop for the retweet button, tap it, wait for the menu, take the menu
screenshot, locate the repost option (falling back to the fixed coordinates
when matching fails), tap it, take a best-effort confirmation screenshot.
The returned record's `x`, `y` and `confidence` are the retweet button's in
every branch after the button is found. -/
def execute_retweet (w : World) (post_url : String) : ActionOutcome × List Event :=
  if !w.open_url_ok then
    ({ success := false, error := some "FAILED_TO_OPEN_URL" }, [.openUrl post_url])
  else
    let pre := [Event.openUrl post_url, .sleep WAIT_AFTER_OPEN]
    let r := retryLoop w "retweet_button" TEMP_SCREENSHOT WAIT_AFTER_SCROLL MAX_RETRY 0 0 0 0
    match r.out with
    | .exhausted rc conf =>
      ({ success := false, error := some "RETWEET_BUTTON_NOT_FOUND",
         retry_count := some rc, confidence := some conf,
         debug_screenshot := some TEMP_SCREENSHOT }, pre ++ r.trace)
    | .found x y c rc =>
      if !w.tap_ok 0 then
        ({ success := false, error := some "TAP_RETWEET_BUTTON_FAILED", x := some x,
           y := some y, confidence := some c, retry_count := some rc },
         pre ++ r.trace ++ [.tap x y])
      else
        let preMenu := pre ++ r.trace ++
          [Event.tap x y, .sleep WAIT_AFTER_RETWEET_BUTTON, .screenshot TEMP_SCREENSHOT_MENU]
        if !w.screenshot_ok r.shotIdx then
          ({ success := false, error := some "SCREENSHOT_MENU_FAILED", x := some x,
             y := some y, confidence := some c, retry_count := some rc }, preMenu)
        else
          let repost := w.match_result r.matchIdx
          let rx : Int := match repost with | .ok v _ _ => v | .fail _ => REPOST_OPTION_X
          let ry : Int := match repost with | .ok _ v _ => v | .fail _ => REPOST_OPTION_Y
          let preTap2 := preMenu ++ [Event.locate "repost_option", Event.tap rx ry]
          if !w.tap_ok 1 then
            ({ success := false, error := some "TAP_REPOST_OPTION_FAILED", x := some x,
               y := some y, confidence := some c, retry_count := some rc }, preTap2)
          else
            ({ success := true, x := some x, y := some y, confidence := some c,
               retry_count := some rc },
             preTap2 ++ [Event.sleep 1, .screenshot TEMP_SCREENSHOT_AFTER])

end RetweetAction

namespace FollowAction

def WAIT_AFTER_OPEN : Nat := 8
def FOLLOW_BUTTON_X : Int := 990
def FOLLOW_BUTTON_Y : Int := 900
def TEMP_SCREENSHOT_AFTER : String := "/tmp/screenshot_follow_after.png"

/-- follow_action.py `execute_follow`: strip leading `@` from the username,
open the profile URL, wait, then tap the fixed coordinates
(template matching is disabled in this action; `confidence = 0` and
`retry_count = 1` are hard-coded), then a best-effort confirmation
screenshot. -/
def execute_follow (w : World) (target_username : String) : ActionOutcome × List Event :=
  let username := (target_username.toList.dropWhile fun ch => ch == '@').asString
  let profile_url := "https://x.com/" ++ username
  if !w.open_url_ok then
    ({ success := false, error := some "FAILED_TO_OPEN_URL" }, [.openUrl profile_url])
  else
    let x := FOLLOW_BUTTON_X
    let y := FOLLOW_BUTTON_Y
    if !w.tap_ok 0 then
      ({ success := false, error := some "TAP_FOLLOW_BUTTON_FAILED", x := some x,
         y := some y, confidence := some 0, retry_count := some 1 },
       [.openUrl profile_url, .sleep WAIT_AFTER_OPEN, .tap x y])
    else
      ({ success := true, x := some x, y := some y, confidence := some 0,
         retry_count := some 1, target_username := some username },
       [.openUrl profile_url, .sleep WAIT_AFTER_OPEN, .tap x y, .sleep 1,
        .screenshot TEMP_SCREENSHOT_AFTER])

end FollowAction

/-- Is this event the scroll gesture. -/
def isScrollEv : Event → Bool
  | .scrollDown => true
  | _ => false

/-- Is this event a template-matching (localization) call. -/
def isLocateEv : Event → Bool
  | .locate _ => true
  | _ => false

/-- Is this event a tap injection. -/
def isTapEv : Event → Bool
  | .tap _ _ => true
  | _ => false

/-- Does the list start with a sleep of `d` seconds. -/
def headIsSleep (d : Nat) : List Event → Bool
  | .sleep d2 :: _ => d2 == d
  | _ => false

/-- Trace well-formedness of scrolling: every scroll gesture occurs
immediately after a template-matching call (so never directly after a failed
screenshot) and is immediately followed by the settle wait of `d` seconds.
`prevLoc` records whether the previous event was a template-matching call. -/
def scrollCtxOk (d : Nat) : Bool → List Event → Bool
  | _, [] => true
  | prevLoc, e :: rest =>
    if isScrollEv e then
      prevLoc && headIsSleep d rest && scrollCtxOk d false rest
    else scrollCtxOk d (isLocateEv e) rest

/-- Concrete oracle: every device call succeeds but template matching never
finds the control (it reports best correlation 1/2, under the threshold). -/
def wNoMatch : World :=
  { open_url_ok := true, screenshot_ok := fun _ => true,
    match_result := fun _ => .fail (1/2), tap_ok := fun _ => true,
    input_text_ok := true, gen_comment := some "nice" }

/-- Concrete oracle: navigation fails, everything else would succeed. -/
def wOpenFail : World :=
  { open_url_ok := false, screenshot_ok := fun _ => true,
    match_result := fun _ => .fail 0, tap_ok := fun _ => true,
    input_text_ok := true, gen_comment := some "nice" }

/-- Concrete oracle: the first screenshot fails, later ones succeed, and the
control is never detected. -/
def wCapFail : World :=
  { open_url_ok := true, screenshot_ok := fun n => !(n == 0),
    match_result := fun _ => .fail 0, tap_ok := fun _ => true,
    input_text_ok := true, gen_comment := some "nice" }

/-- Concrete oracle: the retweet button is found on the first attempt with
confidence 9/10, the repost-option pass fails, and all taps succeed. -/
def wRetweetFallback : World :=
  { open_url_ok := true, screenshot_ok := fun _ => true,
    match_result := fun n => if n = 0 then .ok 100 200 (9/10) else .fail (3/10),
    tap_ok := fun _ => true, input_text_ok := true, gen_comment := some "nice" }

/-- Concrete oracle: the retweet button is found on the first attempt, then
the menu screenshot (screenshot call number 1) fails. -/
def wMenuShotFail : World :=
  { open_url_ok := true, screenshot_ok := fun n => n == 0,
    match_result := fun n => if n = 0 then .ok 100 200 (9/10) else .fail (3/10),
    tap_ok := fun _ => true, input_text_ok := true, gen_comment := some "nice" }

/-- Concrete oracle: comment generation returns nothing, all device calls
succeed and matching would find the control. -/
def wGenFail : World :=
  { open_url_ok := true, screenshot_ok := fun _ => true,
    match_result := fun _ => .ok 100 200 (9/10), tap_ok := fun _ => true,
    input_text_ok := true, gen_comment := none }

/-- Concrete oracle: everything succeeds up to the comment-button tap, which
fails. -/
def wCommentTapFail : World :=
  { open_url_ok := true, screenshot_ok := fun _ => true,
    match_result := fun _ => .ok 100 200 (9/10), tap_ok := fun _ => false,
    input_text_ok := true, gen_comment := some "hi" }

namespace TM

theorem mem_insertY {a c : Cand} {l : List Cand} :
    a ∈ insertY c l ↔ a = c ∨ a ∈ l := by
  induction l with
  | nil => simp [insertY]
  | cons d ds ih =>
    simp only [insertY]
    split
    · simp [List.mem_cons]
    · simp only [List.mem_cons, ih]
      tauto

theorem mem_sortByY {a : Cand} {l : List Cand} : a ∈ sortByY l ↔ a ∈ l := by
  induction l with
  | nil => simp [sortByY]
  | cons c cs ih => simp [sortByY, mem_insertY, ih]

theorem sortByY_ne_nil {l : List Cand} (h : l ≠ []) : sortByY l ≠ [] := by
  cases l with
  | nil => exact absurd rfl h
  | cons c cs =>
    simp only [sortByY]
    cases h2 : sortByY cs with
    | nil => simp [insertY]
    | cons d ds =>
      simp only [insertY]
      split <;> simp

theorem dedupAux_eq_append (l : List Cand) :
    ∀ acc, ∃ t, dedupAux acc l = acc ++ t := by
  induction l with
  | nil => exact fun acc => ⟨[], by simp [dedupAux]⟩
  | cons m ms ih =>
    intro acc
    simp only [dedupAux]
    split
    · exact ih acc
    · obtain ⟨t, ht⟩ := ih (acc ++ [m])
      exact ⟨m :: t, by simp [ht]⟩

theorem mem_dedupAux {a : Cand} (l : List Cand) :
    ∀ acc, a ∈ dedupAux acc l → a ∈ acc ∨ a ∈ l := by
  induction l with
  | nil =>
    intro acc h
    simp only [dedupAux] at h
    exact Or.inl h
  | cons m ms ih =>
    intro acc h
    simp only [dedupAux] at h
    split at h
    · rcases ih acc h with h1 | h1
      · exact Or.inl h1
      · exact Or.inr (List.mem_cons_of_mem _ h1)
    · rcases ih (acc ++ [m]) h with h1 | h1
      · rcases List.mem_append.mp h1 with h2 | h2
        · exact Or.inl h2
        · simp only [List.mem_singleton] at h2
          subst h2
          exact Or.inr (List.mem_cons_self _ _)
      · exact Or.inr (List.mem_cons_of_mem _ h1)

theorem dedupAux_pairwise (l : List Cand) :
    ∀ acc, acc.Pairwise (fun a b => 50 ≤ Nat.dist a.y b.y) →
      (dedupAux acc l).Pairwise (fun a b => 50 ≤ Nat.dist a.y b.y) := by
  induction l with
  | nil =>
    intro acc h
    simpa [dedupAux] using h
  | cons m ms ih =>
    intro acc hacc
    simp only [dedupAux]
    split
    · exact ih acc hacc
    · next hdup =>
      apply ih
      rw [List.pairwise_append]
      refine ⟨hacc, List.pairwise_singleton _ _, ?_⟩
      intro a ha b hb
      simp only [List.mem_singleton] at hb
      rw [hb]
      have hall : ∀ f ∈ acc, 50 ≤ Nat.dist m.y f.y := by
        intro f hf
        by_contra hlt
        apply hdup
        simp only [isDup, List.any_eq_true, decide_eq_true_eq]
        exact ⟨f, hf, Nat.not_le.mp hlt⟩
      have h1 := hall a ha
      rw [Nat.dist_comm] at h1
      exact h1

theorem insertY_map (h : Cand → Cand) (hy : ∀ c, (h c).y = c.y) (c : Cand) :
    ∀ l, insertY (h c) (l.map h) = (insertY c l).map h := by
  intro l
  induction l with
  | nil => simp [insertY]
  | cons d ds ih =>
    by_cases hcd : c.y ≤ d.y
    · simp [insertY, hy, hcd]
    · simp [insertY, hy, hcd, ih]

theorem sortByY_map (h : Cand → Cand) (hy : ∀ c, (h c).y = c.y) :
    ∀ l, sortByY (l.map h) = (sortByY l).map h := by
  intro l
  induction l with
  | nil => simp [sortByY]
  | cons c cs ih =>
    simp only [List.map_cons, sortByY, ih]
    exact insertY_map h hy c _

theorem isDup_map (h : Cand → Cand) (hy : ∀ c, (h c).y = c.y)
    (acc : List Cand) (m : Cand) : isDup (acc.map h) (h m) = isDup acc m := by
  unfold isDup
  rw [List.any_map]
  have he : ((fun f => decide (Nat.dist (h m).y f.y < 50)) ∘ h) =
      fun f => decide (Nat.dist m.y f.y < 50) := by
    funext f
    simp [hy]
  rw [he]

theorem dedupAux_map (h : Cand → Cand) (hy : ∀ c, (h c).y = c.y) :
    ∀ (l acc : List Cand),
      dedupAux (acc.map h) (l.map h) = (dedupAux acc l).map h := by
  intro l
  induction l with
  | nil => simp [dedupAux]
  | cons m ms ih =>
    intro acc
    simp only [List.map_cons, dedupAux, isDup_map h hy]
    split
    · exact ih acc
    · have he : acc.map h ++ [h m] = (acc ++ [m]).map h := by simp
      rw [he, ih]

theorem dedupMatches_map (h : Cand → Cand) (hy : ∀ c, (h c).y = c.y)
    (l : List Cand) : dedupMatches (l.map h) = (dedupMatches l).map h := by
  unfold dedupMatches
  rw [sortByY_map h hy]
  have he := dedupAux_map h hy (sortByY l) []
  simpa using he

theorem foldl_max_spec (l : List SurfPt) :
    ∀ a : ℚ,
      (l.foldl (fun acc q => max acc q.conf) a = a ∨
        ∃ p ∈ l, l.foldl (fun acc q => max acc q.conf) a = p.conf) ∧
      a ≤ l.foldl (fun acc q => max acc q.conf) a ∧
      ∀ p ∈ l, p.conf ≤ l.foldl (fun acc q => max acc q.conf) a := by
  induction l with
  | nil => intro a; simp
  | cons q qs ih =>
    intro a
    simp only [List.foldl_cons]
    obtain ⟨hmem, hle, hub⟩ := ih (max a q.conf)
    refine ⟨?_, ?_, ?_⟩
    · rcases hmem with hm | ⟨p, hp, hpe⟩
      · rcases le_total a q.conf with hh | hh
        · exact Or.inr ⟨q, List.mem_cons_self _ _, by rw [hm, max_eq_right hh]⟩
        · exact Or.inl (by rw [hm, max_eq_left hh])
      · exact Or.inr ⟨p, List.mem_cons_of_mem _ hp, hpe⟩
    · exact le_trans (le_max_left _ _) hle
    · intro p hp
      rcases List.mem_cons.mp hp with h1 | h1
      · rw [h1]
        exact le_trans (le_max_right _ _) hle
      · exact hub p h1

theorem surfMax_spec {s : List SurfPt} (h : s ≠ []) :
    (∃ p ∈ s, surfMax s = p.conf) ∧ ∀ p ∈ s, p.conf ≤ surfMax s := by
  cases s with
  | nil => exact absurd rfl h
  | cons p ps =>
    obtain ⟨hmem, hle, hub⟩ := foldl_max_spec ps p.conf
    unfold surfMax
    refine ⟨?_, ?_⟩
    · rcases hmem with hm | ⟨q, hq, hqe⟩
      · exact ⟨p, List.mem_cons_self _ _, hm⟩
      · exact ⟨q, List.mem_cons_of_mem _ hq, hqe⟩
    · intro q hq
      rcases List.mem_cons.mp hq with h1 | h1
      · rw [h1]
        exact hle
      · exact hub q h1

theorem pyMaxConf_mem (l : List Cand) : ∀ c, pyMaxConf c l ∈ c :: l := by
  induction l with
  | nil => intro c; simp [pyMaxConf]
  | cons d ds ih =>
    intro c
    have h := ih (if c.conf < d.conf then d else c)
    simp only [pyMaxConf, List.foldl_cons] at h ⊢
    rcases List.mem_cons.mp h with h1 | h1
    · rw [h1]
      split <;> simp
    · simp [h1]

theorem mem_candidates_conf {tw th : Nat} {s : List SurfPt} {a : Cand}
    (h : a ∈ candidates tw th s) :
    ∃ p ∈ s, THRESHOLD ≤ p.conf ∧ a.conf = p.conf := by
  unfold candidates at h
  rcases List.mem_map.mp h with ⟨p, hp, he⟩
  rcases List.mem_filter.mp hp with ⟨hps, hpt⟩
  refine ⟨p, hps, by simpa using hpt, ?_⟩
  rw [← he]
  rfl

theorem mem_distinct {tw th : Nat} {s : List SurfPt} {a : Cand}
    (h : a ∈ distinctCandidates tw th s) : a ∈ candidates tw th s := by
  unfold distinctCandidates dedupMatches at h
  rcases mem_dedupAux _ _ h with h1 | h1
  · simp at h1
  · exact mem_sortByY.mp h1

theorem distinct_cons_of_ne_nil {tw th : Nat} {s : List SurfPt}
    (hc : candidates tw th s ≠ []) :
    ∃ f fs, distinctCandidates tw th s = f :: fs := by
  obtain ⟨m, ms, hsort⟩ : ∃ m ms, sortByY (candidates tw th s) = m :: ms := by
    cases h : sortByY (candidates tw th s) with
    | nil => exact absurd h (sortByY_ne_nil hc)
    | cons m ms => exact ⟨m, ms, rfl⟩
  unfold distinctCandidates dedupMatches
  rw [hsort]
  have h0 : dedupAux [] (m :: ms) = dedupAux [m] ms := by
    simp [dedupAux, isDup]
  obtain ⟨t, ht⟩ := dedupAux_eq_append ms [m]
  rw [h0, ht]
  exact ⟨m, t, rfl⟩

/-- C7: for every surface, the DistinctCandidates list contains no two
entries whose vertical centers are less than 50 px apart; and horizontal
positions play no role: any rewriting of candidates that preserves the
vertical center commutes with deduplication. -/
theorem tm_dedup_invariant (s : List SurfPt) (tw th : Nat)
    (h : Cand → Cand) (hy : ∀ c, (h c).y = c.y) :
    (distinctCandidates tw th s).Pairwise (fun a b => 50 ≤ Nat.dist a.y b.y) ∧
    dedupMatches ((candidates tw th s).map h) =
      (distinctCandidates tw th s).map h := by
  constructor
  · unfold distinctCandidates dedupMatches
    exact dedupAux_pairwise _ _ List.Pairwise.nil
  · unfold distinctCandidates
    exact dedupMatches_map h hy _

/-- Witness for tm_dedup_invariant at a concrete surface, with a concrete
vertical-center-preserving rewriting of the horizontal coordinates. -/
theorem tm_dedup_invariant_witness :
    (distinctCandidates 4 6 [⟨0, 0, (7/10 : ℚ)⟩, ⟨10, 3, (8/10 : ℚ)⟩,
        ⟨100, 0, (9/10 : ℚ)⟩]).Pairwise (fun a b => 50 ≤ Nat.dist a.y b.y) ∧
    dedupMatches ((candidates 4 6 [⟨0, 0, (7/10 : ℚ)⟩, ⟨10, 3, (8/10 : ℚ)⟩,
        ⟨100, 0, (9/10 : ℚ)⟩]).map (fun c => ⟨c.x + 7, c.y, c.conf⟩)) =
      (distinctCandidates 4 6 [⟨0, 0, (7/10 : ℚ)⟩, ⟨10, 3, (8/10 : ℚ)⟩,
        ⟨100, 0, (9/10 : ℚ)⟩]).map (fun c => ⟨c.x + 7, c.y, c.conf⟩) :=
  tm_dedup_invariant _ 4 6 (fun c => ⟨c.x + 7, c.y, c.conf⟩) (fun _ => rfl)

/-- C8: on a nonempty readable surface, if no offset reaches the threshold
then find_button returns NotFound, whose bestConfidence is a value observed
in the surface and an upper bound of all observed values (the single highest
one); if some offset reaches the threshold, find_button returns Found. -/
theorem tm_threshold_dichotomy (s : List SurfPt) (tw th : Nat) (pol : Bool)
    (hne : s ≠ []) :
    ((∀ p ∈ s, p.conf < THRESHOLD) →
      ∃ b, find_button s tw th pol = .notFound b ∧
        (∃ p ∈ s, b = p.conf) ∧ ∀ p ∈ s, p.conf ≤ b) ∧
    ((∃ p ∈ s, THRESHOLD ≤ p.conf) →
      ∃ x y c n, find_button s tw th pol = .found x y c n) := by
  constructor
  · intro hall
    have hc : candidates tw th s = [] := by
      unfold candidates
      rw [List.filter_eq_nil_iff.mpr, List.map_nil]
      intro p hp
      simpa using not_le.mpr (hall p hp)
    refine ⟨surfMax s, ?_, (surfMax_spec hne).1, (surfMax_spec hne).2⟩
    unfold find_button
    rw [if_pos hc]
  · rintro ⟨p, hp, hpt⟩
    have hmem : center tw th p ∈ candidates tw th s := by
      unfold candidates
      exact List.mem_map_of_mem _ (List.mem_filter.mpr ⟨hp, by simpa using hpt⟩)
    have hc : candidates tw th s ≠ [] := by
      intro h0
      rw [h0] at hmem
      simp at hmem
    obtain ⟨f, fs, hd⟩ := distinct_cons_of_ne_nil hc
    unfold find_button
    rw [if_neg hc, hd]
    exact ⟨_, _, _, _, rfl⟩

/-- Witness for tm_threshold_dichotomy: a concrete surface with one offset
over the threshold yields a Found result, and a concrete all-below-threshold
surface yields the observed-maximum NotFound. -/
theorem tm_threshold_dichotomy_witness :
    (∃ x y c n, find_button [⟨0, 0, (7/10 : ℚ)⟩, ⟨80, 2, (6/10 : ℚ)⟩] 4 6 true =
      .found x y c n) ∧
    (∃ b, find_button [⟨0, 0, (3/10 : ℚ)⟩] 4 6 true = .notFound b ∧
      (∃ p ∈ [(⟨0, 0, (3/10 : ℚ)⟩ : SurfPt)], b = p.conf) ∧
      ∀ p ∈ [(⟨0, 0, (3/10 : ℚ)⟩ : SurfPt)], p.conf ≤ b) := by
  constructor
  · exact (tm_threshold_dichotomy _ 4 6 true (by simp)).2
      ⟨⟨0, 0, (7/10 : ℚ)⟩, by simp, by norm_num [THRESHOLD]⟩
  · exact (tm_threshold_dichotomy _ 4 6 true (by simp)).1
      (by intro p hp; simp at hp; rw [hp]; norm_num [THRESHOLD])

/-- C4 (amended): on a nonempty readable surface whose correlation values lie
in the TM_CCOEFF_NORMED range from -1 to 1, a Found result's confidence lies
in the interval from THRESHOLD to 1 (hence in the unit interval), while a
NotFound result's bestConfidence lies in the interval from -1 to 1 and can be
negative, so the claim's unit-interval bound holds for Found results but not
for NotFound diagnostics. -/
theorem tm_confidence_range (s : List SurfPt) (tw th : Nat) (pol : Bool)
    (hne : s ≠ []) (hrange : ∀ p ∈ s, -1 ≤ p.conf ∧ p.conf ≤ 1) :
    (∀ x y c n, find_button s tw th pol = .found x y c n →
      THRESHOLD ≤ c ∧ 0 ≤ c ∧ c ≤ 1) ∧
    (∀ b, find_button s tw th pol = .notFound b → -1 ≤ b ∧ b ≤ 1) := by
  constructor
  · intro x y c n hf
    unfold find_button at hf
    split at hf
    · exact absurd hf (by simp)
    · next hc =>
      rcases hd : distinctCandidates tw th s with _ | ⟨f, fs⟩
      · rw [hd] at hf
        exact absurd hf (by simp)
      · rw [hd] at hf
        simp only at hf
        have hsel : (if pol then f else pyMaxConf f fs) ∈ f :: fs := by
          split
          · exact List.mem_cons_self _ _
          · exact pyMaxConf_mem fs f
        rw [← hd] at hsel
        obtain ⟨p, hps, hpt, hpe⟩ := mem_candidates_conf (mem_distinct hsel)
        have hce : c = (if pol then f else pyMaxConf f fs).conf := by
          cases hf
          rfl
        rw [hce, hpe]
        refine ⟨hpt, ?_, (hrange p hps).2⟩
        have h0 : (0 : ℚ) ≤ THRESHOLD := by norm_num [THRESHOLD]
        exact le_trans h0 hpt
  · intro b hf
    unfold find_button at hf
    split at hf
    · have hb : b = surfMax s := by
        cases hf
        rfl
      obtain ⟨⟨p, hps, hpe⟩, hub⟩ := surfMax_spec hne
      rw [hb, hpe]
      exact (hrange p hps)
    · rcases hd : distinctCandidates tw th s with _ | ⟨f, fs⟩
      · rw [hd] at hf
        have hb : b = 0 := by
          cases hf
          rfl
        rw [hb]
        norm_num
      · rw [hd] at hf
        exact absurd hf (by simp)

/-- Witness for tm_confidence_range at a concrete surface whose single offset
passes the threshold. -/
theorem tm_confidence_range_witness :
    THRESHOLD ≤ (7/10 : ℚ) ∧ 0 ≤ (7/10 : ℚ) ∧ (7/10 : ℚ) ≤ 1 := by
  have hconf : THRESHOLD ≤ (7/10 : ℚ) := by norm_num [THRESHOLD]
  have hf : find_button [⟨0, 0, (7/10 : ℚ)⟩] 4 6 true = .found 2 3 (7/10) 1 := by
    simp [find_button, candidates, distinctCandidates, dedupMatches, sortByY,
      insertY, dedupAux, isDup, center, hconf]
  exact (tm_confidence_range [⟨0, 0, (7/10 : ℚ)⟩] 4 6 true (by simp)
    (by intro p hp; simp at hp; rw [hp]; norm_num)).1 2 3 (7/10) 1 hf

/-- C4 counterexample: a surface whose single correlation value is -1/2 (a
value TM_CCOEFF_NORMED can produce) makes find_button return NotFound with
bestConfidence -1/2, a returned confidence value outside the unit interval,
refuting the claim that every returned confidence lies in it. -/
theorem tm_confidence_range_cex :
    find_button [⟨0, 0, -(1/2 : ℚ)⟩] 10 10 true = .notFound (-(1/2)) ∧
    ¬ (0 ≤ (-(1/2) : ℚ)) ∧ -1 ≤ (-(1/2) : ℚ) ∧ (-(1/2) : ℚ) ≤ 1 := by
  refine ⟨?_, by norm_num, by norm_num, by norm_num⟩
  have hc : candidates 10 10 [⟨0, 0, -(1/2 : ℚ)⟩] = [] := by
    have hconf : ¬ THRESHOLD ≤ -(1/2 : ℚ) := by norm_num [THRESHOLD]
    simp only [candidates, List.filter_cons, List.filter_nil, hconf,
      decide_eq_true_eq, if_neg hconf, List.map_nil]
    simp
  unfold find_button
  rw [if_pos hc]
  rfl

end TM

theorem scrollCtxOk_append (d : Nat) (l2 : List Event)
    (h2 : ∀ q, scrollCtxOk d q l2 = true) :
    ∀ (l1 : List Event) (p : Bool), scrollCtxOk d p l1 = true →
      scrollCtxOk d p (l1 ++ l2) = true := by
  intro l1
  induction l1 with
  | nil =>
    intro p _
    simpa using h2 p
  | cons e rest ih =>
    intro p h1
    rw [List.cons_append]
    by_cases hse : isScrollEv e
    · simp only [scrollCtxOk, hse, if_true] at h1 ⊢
      rcases Bool.and_eq_true_iff.mp h1 with ⟨h3, h4⟩
      rcases Bool.and_eq_true_iff.mp h3 with ⟨h5, h6⟩
      cases rest with
      | nil => simp [headIsSleep] at h6
      | cons r rs =>
        have hh : headIsSleep d ((r :: rs) ++ l2) = headIsSleep d (r :: rs) := by
          cases r <;> rfl
        rw [h5, hh, h6, ih false h4]
        rfl
    · simp only [scrollCtxOk, hse, if_false] at h1 ⊢
      exact ih _ h1

theorem retryLoop_scrollCtxOk (w : World) (control path : String) (d : Nat) :
    ∀ remaining i s m conf p,
      scrollCtxOk d p (retryLoop w control path d remaining i s m conf).trace = true := by
  intro remaining
  induction remaining with
  | zero =>
    intro i s m conf p
    simp [retryLoop, scrollCtxOk]
  | succ rem ih =>
    intro i s m conf p
    simp only [retryLoop]
    by_cases hs : w.screenshot_ok s
    · simp only [hs, if_true]
      cases hm : w.match_result m with
      | ok x y c => simp [scrollCtxOk, isScrollEv, isLocateEv]
      | fail b =>
        by_cases hr : rem = 0
        · simp [hr, scrollCtxOk, isScrollEv, isLocateEv]
        · have ihh := ih (i + 1) (s + 1) (m + 1) conf false
          simp [hr, scrollCtxOk, isScrollEv, isLocateEv, headIsSleep, ihh]
    · have ihh := ih (i + 1) (s + 1) (m + 1) conf false
      simp [hs, scrollCtxOk, isScrollEv, isLocateEv, ihh]

theorem retryLoop_found_first (w : World) (control path : String)
    (ws rem i s m : Nat) (conf : ℚ) (x y : Int) (c : ℚ)
    (hshot : w.screenshot_ok s = true) (hmatch : w.match_result m = .ok x y c) :
    retryLoop w control path ws (rem + 1) i s m conf =
      ⟨.found x y c (i + 1), [.screenshot path, .locate control], s + 1, m + 1⟩ := by
  simp [retryLoop, hshot, hmatch]

theorem retryLoop_all_fail (w : World) (control path : String) (ws : Nat)
    (hs : ∀ n, w.screenshot_ok n = true)
    (hm : ∀ n, ∃ b, w.match_result n = .fail b) :
    ∀ remaining i s m conf, 1 ≤ remaining →
      (retryLoop w control path ws remaining i s m conf).out =
        .exhausted (i + remaining) conf ∧
      (retryLoop w control path ws remaining i s m conf).trace.countP isLocateEv =
        remaining ∧
      (retryLoop w control path ws remaining i s m conf).trace.countP isScrollEv =
        remaining - 1 := by
  intro remaining
  induction remaining with
  | zero =>
    intro i s m conf hge
    exact absurd hge (by norm_num)
  | succ rem ih =>
    intro i s m conf _
    obtain ⟨b, hb⟩ := hm m
    by_cases hr : rem = 0
    · subst hr
      simp [retryLoop, hs s, hb, List.countP_cons, isLocateEv, isScrollEv]
    · have hge : 1 ≤ rem := Nat.one_le_iff_ne_zero.mpr hr
      obtain ⟨h1, h2, h3⟩ := ih (i + 1) (s + 1) (m + 1) conf hge
      simp only [retryLoop, hs s, if_true, hb, hr, if_false]
      refine ⟨?_, ?_, ?_⟩
      · rw [h1]
        congr 1
        omega
      · simp [List.countP_append, List.countP_cons, isLocateEv, isScrollEv, h2]
      · simp [List.countP_append, List.countP_cons, isLocateEv, isScrollEv, h3]
        omega

theorem retryLoop_fail_step (w : World) (control path : String)
    (ws rem i s m : Nat) (conf b : ℚ) (hshot : w.screenshot_ok s = true)
    (hmatch : w.match_result m = .fail b) (hrem : rem ≠ 0) :
    retryLoop w control path ws (rem + 1) i s m conf =
      ⟨(retryLoop w control path ws rem (i + 1) (s + 1) (m + 1) conf).out,
       [.screenshot path, .locate control, .scrollDown, .sleep ws] ++
         (retryLoop w control path ws rem (i + 1) (s + 1) (m + 1) conf).trace,
       (retryLoop w control path ws rem (i + 1) (s + 1) (m + 1) conf).shotIdx,
       (retryLoop w control path ws rem (i + 1) (s + 1) (m + 1) conf).matchIdx⟩ := by
  simp [retryLoop, hshot, hmatch, hrem]

theorem retryLoop_capture_fail_step (w : World) (control path : String)
    (ws rem i s m : Nat) (conf : ℚ) (hshot : w.screenshot_ok s = false) :
    retryLoop w control path ws (rem + 1) i s m conf =
      ⟨(retryLoop w control path ws rem (i + 1) (s + 1) (m + 1) conf).out,
       .screenshot path :: (retryLoop w control path ws rem (i + 1) (s + 1) (m + 1) conf).trace,
       (retryLoop w control path ws rem (i + 1) (s + 1) (m + 1) conf).shotIdx,
       (retryLoop w control path ws rem (i + 1) (s + 1) (m + 1) conf).matchIdx⟩ := by
  simp [retryLoop, hshot]

theorem execute_like_trace_shape (w : World) (url : String) :
    (w.open_url_ok = false ∧ (LikeAction.execute_like w url).2 = [.openUrl url]) ∨
    ∃ post, (LikeAction.execute_like w url).2 =
        [Event.openUrl url, .sleep LikeAction.WAIT_AFTER_OPEN] ++
          ((retryLoop w "like_button" LikeAction.TEMP_SCREENSHOT
              LikeAction.WAIT_AFTER_SCROLL LikeAction.MAX_RETRY 0 0 0 0).trace ++ post) ∧
      (∀ q, scrollCtxOk LikeAction.WAIT_AFTER_SCROLL q post = true) := by
  unfold LikeAction.execute_like
  by_cases ho : w.open_url_ok
  · right
    rcases hL : retryLoop w "like_button" LikeAction.TEMP_SCREENSHOT
        LikeAction.WAIT_AFTER_SCROLL LikeAction.MAX_RETRY 0 0 0 0 with ⟨out, tr, si, mi⟩
    cases out with
    | exhausted rc conf =>
      refine ⟨[], ?_, fun q => rfl⟩
      simp [ho, hL]
    | found x y c rc =>
      by_cases ht : w.tap_ok 0
      · refine ⟨[.tap x y, .sleep 1, .screenshot LikeAction.TEMP_SCREENSHOT_AFTER], ?_, ?_⟩
        · simp [ho, hL, ht]
        · intro q
          simp [scrollCtxOk, isScrollEv, isLocateEv]
      · refine ⟨[.tap x y], ?_, ?_⟩
        · simp [ho, hL, ht]
        · intro q
          simp [scrollCtxOk, isScrollEv, isLocateEv]
  · left
    refine ⟨by simpa using ho, ?_⟩
    simp [ho]

/-- C5 (amended): inside the bounded retry loop, a capture failure is not
handled like a NotFound result.  In every like-action trace a scroll gesture
occurs only immediately after a template-matching call and is immediately
followed by the settle wait, so a failed screenshot is never followed by a
scroll; a NotFound first attempt with attempts remaining is followed by
swipeDown plus the settle wait, while after a failed first capture the next
screenshot follows immediately with no scroll and no wait in between. -/
theorem like_scroll_policy :
    (∀ (w : World) (url : String),
      scrollCtxOk LikeAction.WAIT_AFTER_SCROLL false
        (LikeAction.execute_like w url).2 = true) ∧
    (∀ (w : World) (url : String) (b : ℚ), w.open_url_ok = true →
      w.screenshot_ok 0 = true → w.match_result 0 = .fail b →
      ∃ rest, (LikeAction.execute_like w url).2 =
        [.openUrl url, .sleep 10, .screenshot LikeAction.TEMP_SCREENSHOT,
         .locate "like_button", .scrollDown, .sleep 2] ++ rest) ∧
    (∀ (w : World) (url : String), w.open_url_ok = true →
      w.screenshot_ok 0 = false →
      ∃ rest, (LikeAction.execute_like w url).2 =
        [.openUrl url, .sleep 10, .screenshot LikeAction.TEMP_SCREENSHOT,
         .screenshot LikeAction.TEMP_SCREENSHOT] ++ rest) := by
  refine ⟨?_, ?_, ?_⟩
  · intro w url
    rcases execute_like_trace_shape w url with ⟨_, htr⟩ | ⟨post, htr, hpost⟩
    · rw [htr]
      simp [scrollCtxOk, isScrollEv, isLocateEv]
    · rw [htr]
      simp only [List.cons_append, List.nil_append, scrollCtxOk, isScrollEv,
        isLocateEv, if_false]
      exact scrollCtxOk_append _ post hpost _ false
        (retryLoop_scrollCtxOk w "like_button" LikeAction.TEMP_SCREENSHOT
          LikeAction.WAIT_AFTER_SCROLL LikeAction.MAX_RETRY 0 0 0 0 false)
  · intro w url b ho hs0 hm0
    rcases execute_like_trace_shape w url with ⟨hfail, _⟩ | ⟨post, htr, _⟩
    · rw [ho] at hfail
      cases hfail
    · have hfs : retryLoop w "like_button" LikeAction.TEMP_SCREENSHOT
          LikeAction.WAIT_AFTER_SCROLL LikeAction.MAX_RETRY 0 0 0 0 =
          ⟨(retryLoop w "like_button" LikeAction.TEMP_SCREENSHOT
              LikeAction.WAIT_AFTER_SCROLL 2 1 1 1 0).out,
           [.screenshot LikeAction.TEMP_SCREENSHOT, .locate "like_button",
            .scrollDown, .sleep LikeAction.WAIT_AFTER_SCROLL] ++
             (retryLoop w "like_button" LikeAction.TEMP_SCREENSHOT
                LikeAction.WAIT_AFTER_SCROLL 2 1 1 1 0).trace,
           (retryLoop w "like_button" LikeAction.TEMP_SCREENSHOT
              LikeAction.WAIT_AFTER_SCROLL 2 1 1 1 0).shotIdx,
           (retryLoop w "like_button" LikeAction.TEMP_SCREENSHOT
              LikeAction.WAIT_AFTER_SCROLL 2 1 1 1 0).matchIdx⟩ :=
        retryLoop_fail_step w "like_button" LikeAction.TEMP_SCREENSHOT
          LikeAction.WAIT_AFTER_SCROLL 2 0 0 0 0 b hs0 hm0 (by norm_num)
      rw [hfs] at htr
      refine ⟨(retryLoop w "like_button" LikeAction.TEMP_SCREENSHOT
          LikeAction.WAIT_AFTER_SCROLL 2 1 1 1 0).trace ++ post, ?_⟩
      rw [htr]
      simp [LikeAction.WAIT_AFTER_OPEN, LikeAction.WAIT_AFTER_SCROLL]
  · intro w url ho hs0
    rcases execute_like_trace_shape w url with ⟨hfail, _⟩ | ⟨post, htr, _⟩
    · rw [ho] at hfail
      cases hfail
    · have hfs : retryLoop w "like_button" LikeAction.TEMP_SCREENSHOT
          LikeAction.WAIT_AFTER_SCROLL LikeAction.MAX_RETRY 0 0 0 0 =
          ⟨(retryLoop w "like_button" LikeAction.TEMP_SCREENSHOT
              LikeAction.WAIT_AFTER_SCROLL 2 1 1 1 0).out,
           .screenshot LikeAction.TEMP_SCREENSHOT ::
             (retryLoop w "like_button" LikeAction.TEMP_SCREENSHOT
                LikeAction.WAIT_AFTER_SCROLL 2 1 1 1 0).trace,
           (retryLoop w "like_button" LikeAction.TEMP_SCREENSHOT
              LikeAction.WAIT_AFTER_SCROLL 2 1 1 1 0).shotIdx,
           (retryLoop w "like_button" LikeAction.TEMP_SCREENSHOT
              LikeAction.WAIT_AFTER_SCROLL 2 1 1 1 0).matchIdx⟩ :=
        retryLoop_capture_fail_step w "like_button" LikeAction.TEMP_SCREENSHOT
          LikeAction.WAIT_AFTER_SCROLL 2 0 0 0 0 hs0
      rw [hfs] at htr
      have hnext : ∃ tail,
          (retryLoop w "like_button" LikeAction.TEMP_SCREENSHOT
            LikeAction.WAIT_AFTER_SCROLL 2 1 1 1 0).trace =
          .screenshot LikeAction.TEMP_SCREENSHOT :: tail := by
        by_cases hs1 : w.screenshot_ok 1
        · cases hm1 : w.match_result 1 with
          | ok x y c =>
            rw [retryLoop_found_first w "like_button" LikeAction.TEMP_SCREENSHOT
              LikeAction.WAIT_AFTER_SCROLL 1 1 1 1 0 x y c hs1 hm1]
            exact ⟨[.locate "like_button"], rfl⟩
          | fail b =>
            rw [retryLoop_fail_step w "like_button" LikeAction.TEMP_SCREENSHOT
              LikeAction.WAIT_AFTER_SCROLL 1 1 1 1 0 b hs1 hm1 (by norm_num)]
            exact ⟨_, rfl⟩
        · rw [retryLoop_capture_fail_step w "like_button" LikeAction.TEMP_SCREENSHOT
            LikeAction.WAIT_AFTER_SCROLL 1 1 1 1 0 (by simpa using hs1)]
          exact ⟨_, rfl⟩
      obtain ⟨tail, htail⟩ := hnext
      rw [htail] at htr
      refine ⟨tail ++ post, ?_⟩
      rw [htr]
      simp [LikeAction.WAIT_AFTER_OPEN]

/-- Witness for like_scroll_policy at the concrete capture-failure and
never-found oracles. -/
theorem like_scroll_policy_witness :
    scrollCtxOk LikeAction.WAIT_AFTER_SCROLL false
      (LikeAction.execute_like wCapFail "u").2 = true ∧
    (∃ rest, (LikeAction.execute_like wNoMatch "u").2 =
      [.openUrl "u", .sleep 10, .screenshot LikeAction.TEMP_SCREENSHOT,
       .locate "like_button", .scrollDown, .sleep 2] ++ rest) ∧
    (∃ rest, (LikeAction.execute_like wCapFail "u").2 =
      [.openUrl "u", .sleep 10, .screenshot LikeAction.TEMP_SCREENSHOT,
       .screenshot LikeAction.TEMP_SCREENSHOT] ++ rest) :=
  ⟨like_scroll_policy.1 wCapFail "u",
   like_scroll_policy.2.1 wNoMatch "u" (1/2) rfl rfl rfl,
   like_scroll_policy.2.2 wCapFail "u" rfl rfl⟩

/-- C5 counterexample: with the first capture failing and the control never
found, two attempts fail while attempts remain (the first by capture failure,
the second by NotFound), yet the trace contains exactly one scroll gesture —
the capture failure is followed directly by the next screenshot, refuting
that both failure kinds are handled with a scroll plus settle delay. -/
theorem like_scroll_policy_cex :
    (LikeAction.execute_like wCapFail "u").2 =
      [.openUrl "u", .sleep 10, .screenshot "/tmp/screenshot.png",
       .screenshot "/tmp/screenshot.png", .locate "like_button", .scrollDown,
       .sleep 2, .screenshot "/tmp/screenshot.png", .locate "like_button"] ∧
    (LikeAction.execute_like wCapFail "u").2.countP isScrollEv = 1 := by
  exact ⟨rfl, rfl⟩

/-- C6 (amended): when navigation succeeds, every capture succeeds and the
locator reports NotFound on every attempt, the like action performs exactly
3 localization attempts and exactly 2 scroll gestures and terminates with
LIKE_BUTTON_NOT_FOUND carrying retry_count 3 — but the reported confidence
is the initial 0, not the best confidence the locator observed. -/
theorem like_retry_exhaustion (w : World) (url : String)
    (ho : w.open_url_ok = true) (hs : ∀ n, w.screenshot_ok n = true)
    (hm : ∀ n, ∃ b, w.match_result n = .fail b) :
    (LikeAction.execute_like w url).1 =
      { success := false, error := some "LIKE_BUTTON_NOT_FOUND",
        retry_count := some 3, confidence := some 0 } ∧
    (LikeAction.execute_like w url).2.countP isLocateEv = 3 ∧
    (LikeAction.execute_like w url).2.countP isScrollEv = 2 := by
  obtain ⟨h1, h2, h3⟩ := retryLoop_all_fail w "like_button"
    LikeAction.TEMP_SCREENSHOT LikeAction.WAIT_AFTER_SCROLL hs hm
    LikeAction.MAX_RETRY 0 0 0 0 (by norm_num [LikeAction.MAX_RETRY])
  unfold LikeAction.execute_like
  rcases hL : retryLoop w "like_button" LikeAction.TEMP_SCREENSHOT
      LikeAction.WAIT_AFTER_SCROLL LikeAction.MAX_RETRY 0 0 0 0 with ⟨out, tr, si, mi⟩
  rw [hL] at h1 h2 h3
  simp only at h1 h2 h3
  subst h1
  simp [ho, hL, List.countP_append, List.countP_cons, h2, h3, isLocateEv,
    isScrollEv, LikeAction.MAX_RETRY]

/-- Witness for like_retry_exhaustion at the concrete never-found oracle. -/
theorem like_retry_exhaustion_witness :
    (LikeAction.execute_like wNoMatch "u").1 =
      { success := false, error := some "LIKE_BUTTON_NOT_FOUND",
        retry_count := some 3, confidence := some 0 } ∧
    (LikeAction.execute_like wNoMatch "u").2.countP isLocateEv = 3 ∧
    (LikeAction.execute_like wNoMatch "u").2.countP isScrollEv = 2 :=
  like_retry_exhaustion wNoMatch "u" rfl (fun _ => rfl) (fun _ => ⟨1/2, rfl⟩)

/-- C6 counterexample: with every attempt reporting NotFound at best
confidence 1/2, the terminal record carries confidence 0 — the best observed
confidence is discarded, refuting the claim that the record carries it. -/
theorem like_retry_confidence_cex :
    wNoMatch.match_result 0 = .fail (1/2) ∧
    (LikeAction.execute_like wNoMatch "u").1.error = some "LIKE_BUTTON_NOT_FOUND" ∧
    (LikeAction.execute_like wNoMatch "u").1.confidence = some 0 ∧
    some (0 : ℚ) ≠ some (1/2 : ℚ) := by
  refine ⟨rfl, rfl, rfl, ?_⟩
  simp only [ne_eq, Option.some.injEq]
  norm_num

/-- C1 (amended): the follow action deviates from the generic orchestrator
shape: after opening the profile URL and waiting the settle delay it performs
no capture and no localization attempt and taps the fixed coordinates
(990, 900) unconditionally, with confidence 0 and retry count 1 hard-coded in
the outcome; only the best-effort confirmation screenshot depends on the tap
result. -/
theorem follow_fixed_coordinates (w : World) (username : String)
    (ho : w.open_url_ok = true) :
    (FollowAction.execute_follow w username).2 =
      [.openUrl ("https://x.com/" ++
          (username.toList.dropWhile fun ch => ch == '@').asString),
       .sleep 8, .tap 990 900] ++
        (if w.tap_ok 0 then
          [Event.sleep 1, .screenshot FollowAction.TEMP_SCREENSHOT_AFTER]
         else []) ∧
    (FollowAction.execute_follow w username).2.countP isLocateEv = 0 ∧
    (FollowAction.execute_follow w username).1.confidence = some 0 ∧
    (FollowAction.execute_follow w username).1.retry_count = some 1 := by
  unfold FollowAction.execute_follow
  by_cases ht : w.tap_ok 0 <;>
    simp [ho, ht, FollowAction.WAIT_AFTER_OPEN, FollowAction.FOLLOW_BUTTON_X,
      FollowAction.FOLLOW_BUTTON_Y, List.countP_cons, isLocateEv]

/-- Witness for follow_fixed_coordinates at a concrete oracle. -/
theorem follow_fixed_coordinates_witness :
    (FollowAction.execute_follow wNoMatch "bob").2 =
      [.openUrl ("https://x.com/" ++
          ("bob".toList.dropWhile fun ch => ch == '@').asString),
       .sleep 8, .tap 990 900] ++
        (if wNoMatch.tap_ok 0 then
          [Event.sleep 1, .screenshot FollowAction.TEMP_SCREENSHOT_AFTER]
         else []) ∧
    (FollowAction.execute_follow wNoMatch "bob").2.countP isLocateEv = 0 ∧
    (FollowAction.execute_follow wNoMatch "bob").1.confidence = some 0 ∧
    (FollowAction.execute_follow wNoMatch "bob").1.retry_count = some 1 :=
  follow_fixed_coordinates wNoMatch "bob" rfl

/-- C1 counterexample: under an oracle whose locator never returns Found, the
follow action still issues a tap and performs zero localization calls,
refuting that it runs up to three capture-and-locate attempts and only taps
coordinates resolved by a Found result. -/
theorem follow_fixed_coordinates_cex :
    (FollowAction.execute_follow wNoMatch "@alice").2 =
      [.openUrl "https://x.com/alice", .sleep 8, .tap 990 900, .sleep 1,
       .screenshot "/tmp/screenshot_follow_after.png"] ∧
    (FollowAction.execute_follow wNoMatch "@alice").2.countP isLocateEv = 0 ∧
    (FollowAction.execute_follow wNoMatch "@alice").2.countP isTapEv = 1 := by
  exact ⟨rfl, rfl, rfl⟩

/-- C2 (amended): when the retweet button is located on the first attempt and
the menu-locate pass fails but both taps succeed, the fallback coordinates
(230, 1440) are tapped and the outcome has success = true — but the outcome
reports the retweet button's coordinates and matching confidence, not the
fallback coordinates and not confidence 0. -/
theorem retweet_fallback_report (w : World) (url : String) (x y : Int)
    (c b : ℚ) (ho : w.open_url_ok = true) (hs0 : w.screenshot_ok 0 = true)
    (hm0 : w.match_result 0 = .ok x y c) (ht0 : w.tap_ok 0 = true)
    (hs1 : w.screenshot_ok 1 = true) (hm1 : w.match_result 1 = .fail b)
    (ht1 : w.tap_ok 1 = true) :
    (RetweetAction.execute_retweet w url).1 =
      { success := true, x := some x, y := some y, confidence := some c,
        retry_count := some 1 } ∧
    (RetweetAction.execute_retweet w url).2 =
      [.openUrl url, .sleep 10, .screenshot RetweetAction.TEMP_SCREENSHOT,
       .locate "retweet_button", .tap x y, .sleep 2,
       .screenshot RetweetAction.TEMP_SCREENSHOT_MENU, .locate "repost_option",
       .tap 230 1440, .sleep 1,
       .screenshot RetweetAction.TEMP_SCREENSHOT_AFTER] := by
  have hL : retryLoop w "retweet_button" RetweetAction.TEMP_SCREENSHOT
      RetweetAction.WAIT_AFTER_SCROLL RetweetAction.MAX_RETRY 0 0 0 0 =
      ⟨.found x y c 1, [.screenshot RetweetAction.TEMP_SCREENSHOT,
        .locate "retweet_button"], 1, 1⟩ :=
    retryLoop_found_first w "retweet_button" RetweetAction.TEMP_SCREENSHOT
      RetweetAction.WAIT_AFTER_SCROLL 2 0 0 0 0 x y c hs0 hm0
  unfold RetweetAction.execute_retweet
  simp [ho, hL, ht0, hs1, hm1, ht1, RetweetAction.WAIT_AFTER_OPEN,
    RetweetAction.WAIT_AFTER_RETWEET_BUTTON, RetweetAction.REPOST_OPTION_X,
    RetweetAction.REPOST_OPTION_Y]

/-- Witness for retweet_fallback_report at the concrete fallback oracle. -/
theorem retweet_fallback_report_witness :
    (RetweetAction.execute_retweet wRetweetFallback "u").1 =
      { success := true, x := some 100, y := some 200,
        confidence := some (9/10), retry_count := some 1 } ∧
    (RetweetAction.execute_retweet wRetweetFallback "u").2 =
      [.openUrl "u", .sleep 10, .screenshot RetweetAction.TEMP_SCREENSHOT,
       .locate "retweet_button", .tap 100 200, .sleep 2,
       .screenshot RetweetAction.TEMP_SCREENSHOT_MENU, .locate "repost_option",
       .tap 230 1440, .sleep 1,
       .screenshot RetweetAction.TEMP_SCREENSHOT_AFTER] :=
  retweet_fallback_report wRetweetFallback "u" 100 200 (9/10) (3/10)
    rfl rfl rfl rfl rfl rfl rfl

/-- C2 counterexample: with the retweet button found at (100, 200) and
confidence 9/10 and the menu pass failing, the fallback (230, 1440) is
tapped and the action succeeds, but the returned record reports x = 100,
y = 200 and confidence 9/10 — not the fallback coordinates with
confidence 0 as claimed. -/
theorem retweet_fallback_report_cex :
    (RetweetAction.execute_retweet wRetweetFallback "u").1.success = true ∧
    (RetweetAction.execute_retweet wRetweetFallback "u").2.countP
      (fun e => e == Event.tap 230 1440) = 1 ∧
    (RetweetAction.execute_retweet wRetweetFallback "u").1.x = some 100 ∧
    (RetweetAction.execute_retweet wRetweetFallback "u").1.y = some 200 ∧
    (RetweetAction.execute_retweet wRetweetFallback "u").1.confidence =
      some (9/10) ∧
    some (100 : Int) ≠ some (230 : Int) ∧
    some (200 : Int) ≠ some (1440 : Int) ∧
    some ((9 : ℚ)/10) ≠ some (0 : ℚ) := by
  refine ⟨rfl, rfl, rfl, rfl, rfl, by decide, by decide, ?_⟩
  simp only [ne_eq, Option.some.injEq]
  norm_num

/-- C10: if the retweet button was located and tapped but the
confirmation-menu screenshot fails, the action terminates with
SCREENSHOT_MENU_FAILED carrying the button coordinates, confidence and retry
count, and the trace ends there (no fallback tap); the fixed-coordinate
fallback (230, 1440) is tapped only when the menu capture succeeds and the
repost-option locate fails, while a successful locate taps the located
coordinates instead. -/
theorem retweet_menu_capture (w : World) (url : String) (x y : Int) (c : ℚ)
    (ho : w.open_url_ok = true) (hs0 : w.screenshot_ok 0 = true)
    (hm0 : w.match_result 0 = .ok x y c) (ht0 : w.tap_ok 0 = true) :
    (w.screenshot_ok 1 = false →
      (RetweetAction.execute_retweet w url).1 =
        { success := false, error := some "SCREENSHOT_MENU_FAILED",
          x := some x, y := some y, confidence := some c,
          retry_count := some 1 } ∧
      (RetweetAction.execute_retweet w url).2 =
        [.openUrl url, .sleep 10, .screenshot RetweetAction.TEMP_SCREENSHOT,
         .locate "retweet_button", .tap x y, .sleep 2,
         .screenshot RetweetAction.TEMP_SCREENSHOT_MENU]) ∧
    (∀ b : ℚ, w.screenshot_ok 1 = true → w.match_result 1 = .fail b →
      ∃ rest, (RetweetAction.execute_retweet w url).2 =
        [.openUrl url, .sleep 10, .screenshot RetweetAction.TEMP_SCREENSHOT,
         .locate "retweet_button", .tap x y, .sleep 2,
         .screenshot RetweetAction.TEMP_SCREENSHOT_MENU,
         .locate "repost_option", .tap 230 1440] ++ rest) ∧
    (∀ (rx ry : Int) (rc : ℚ), w.screenshot_ok 1 = true →
      w.match_result 1 = .ok rx ry rc →
      ∃ rest, (RetweetAction.execute_retweet w url).2 =
        [.openUrl url, .sleep 10, .screenshot RetweetAction.TEMP_SCREENSHOT,
         .locate "retweet_button", .tap x y, .sleep 2,
         .screenshot RetweetAction.TEMP_SCREENSHOT_MENU,
         .locate "repost_option", .tap rx ry] ++ rest) := by
  have hL : retryLoop w "retweet_button" RetweetAction.TEMP_SCREENSHOT
      RetweetAction.WAIT_AFTER_SCROLL RetweetAction.MAX_RETRY 0 0 0 0 =
      ⟨.found x y c 1, [.screenshot RetweetAction.TEMP_SCREENSHOT,
        .locate "retweet_button"], 1, 1⟩ :=
    retryLoop_found_first w "retweet_button" RetweetAction.TEMP_SCREENSHOT
      RetweetAction.WAIT_AFTER_SCROLL 2 0 0 0 0 x y c hs0 hm0
  unfold RetweetAction.execute_retweet
  refine ⟨?_, ?_, ?_⟩
  · intro hs1
    simp [ho, hL, ht0, hs1, RetweetAction.WAIT_AFTER_OPEN,
      RetweetAction.WAIT_AFTER_RETWEET_BUTTON]
  · intro b hs1 hm1
    by_cases ht1 : w.tap_ok 1
    · refine ⟨[.sleep 1, .screenshot RetweetAction.TEMP_SCREENSHOT_AFTER], ?_⟩
      simp [ho, hL, ht0, hs1, hm1, ht1, RetweetAction.WAIT_AFTER_OPEN,
        RetweetAction.WAIT_AFTER_RETWEET_BUTTON, RetweetAction.REPOST_OPTION_X,
        RetweetAction.REPOST_OPTION_Y]
    · refine ⟨[], ?_⟩
      simp [ho, hL, ht0, hs1, hm1, ht1, RetweetAction.WAIT_AFTER_OPEN,
        RetweetAction.WAIT_AFTER_RETWEET_BUTTON, RetweetAction.REPOST_OPTION_X,
        RetweetAction.REPOST_OPTION_Y]
  · intro rx ry rc hs1 hm1
    by_cases ht1 : w.tap_ok 1
    · refine ⟨[.sleep 1, .screenshot RetweetAction.TEMP_SCREENSHOT_AFTER], ?_⟩
      simp [ho, hL, ht0, hs1, hm1, ht1, RetweetAction.WAIT_AFTER_OPEN,
        RetweetAction.WAIT_AFTER_RETWEET_BUTTON]
    · refine ⟨[], ?_⟩
      simp [ho, hL, ht0, hs1, hm1, ht1, RetweetAction.WAIT_AFTER_OPEN,
        RetweetAction.WAIT_AFTER_RETWEET_BUTTON]

/-- Witness for retweet_menu_capture at the concrete menu-capture-failure
oracle. -/
theorem retweet_menu_capture_witness :
    (RetweetAction.execute_retweet wMenuShotFail "u").1 =
      { success := false, error := some "SCREENSHOT_MENU_FAILED",
        x := some 100, y := some 200, confidence := some (9/10),
        retry_count := some 1 } ∧
    (RetweetAction.execute_retweet wMenuShotFail "u").2 =
      [.openUrl "u", .sleep 10, .screenshot RetweetAction.TEMP_SCREENSHOT,
       .locate "retweet_button", .tap 100 200, .sleep 2,
       .screenshot RetweetAction.TEMP_SCREENSHOT_MENU] :=
  (retweet_menu_capture wMenuShotFail "u" 100 200 (9/10)
    rfl rfl rfl rfl).1 rfl

/-- C9: if comment generation yields no text (None or the empty string, both
falsy in Python), the comment action terminates immediately with
COMMENT_GENERATION_FAILED and its trace ends at the generation call — no
capture, localization, tap or text input happens afterwards. -/
theorem comment_generation_fail_fast (w : World) (url : String)
    (ho : w.open_url_ok = true) (hs0 : w.screenshot_ok 0 = true)
    (hg : w.gen_comment = none ∨ w.gen_comment = some "") :
    (CommentAction.execute_ai_comment w url).1 =
      { success := false, error := some "COMMENT_GENERATION_FAILED" } ∧
    (CommentAction.execute_ai_comment w url).2 =
      [.openUrl url, .sleep 10, .screenshot CommentAction.TEMP_SCREENSHOT,
       .generateComment] := by
  rcases hg with hg | hg <;>
    simp [CommentAction.execute_ai_comment, ho, hs0, hg,
      CommentAction.WAIT_AFTER_OPEN]

/-- Witness for comment_generation_fail_fast at the concrete
generation-failure oracle. -/
theorem comment_generation_fail_fast_witness :
    (CommentAction.execute_ai_comment wGenFail "u").1 =
      { success := false, error := some "COMMENT_GENERATION_FAILED" } ∧
    (CommentAction.execute_ai_comment wGenFail "u").2 =
      [.openUrl "u", .sleep 10, .screenshot CommentAction.TEMP_SCREENSHOT,
       .generateComment] :=
  comment_generation_fail_fast wGenFail "u" rfl rfl (Or.inl rfl)

theorem like_retry_none_iff (w : World) (url : String) :
    (LikeAction.execute_like w url).1.retry_count = none ↔
    (LikeAction.execute_like w url).1.error = some "FAILED_TO_OPEN_URL" := by
  unfold LikeAction.execute_like
  by_cases ho : w.open_url_ok
  · rcases hL : retryLoop w "like_button" LikeAction.TEMP_SCREENSHOT
        LikeAction.WAIT_AFTER_SCROLL LikeAction.MAX_RETRY 0 0 0 0 with ⟨out, tr, si, mi⟩
    cases out with
    | exhausted rc conf => simp [ho, hL]
    | found x y c rc =>
      by_cases ht : w.tap_ok 0 <;> simp [ho, hL, ht]
  · simp [ho]

theorem retweet_retry_none_iff (w : World) (url : String) :
    (RetweetAction.execute_retweet w url).1.retry_count = none ↔
    (RetweetAction.execute_retweet w url).1.error = some "FAILED_TO_OPEN_URL" := by
  unfold RetweetAction.execute_retweet
  by_cases ho : w.open_url_ok
  · rcases hL : retryLoop w "retweet_button" RetweetAction.TEMP_SCREENSHOT
        RetweetAction.WAIT_AFTER_SCROLL RetweetAction.MAX_RETRY 0 0 0 0 with ⟨out, tr, si, mi⟩
    cases out with
    | exhausted rc conf => simp [ho, hL]
    | found x y c rc =>
      by_cases ht0 : w.tap_ok 0
      · by_cases hs1 : w.screenshot_ok si
        · cases hm1 : w.match_result mi with
          | ok rx ry rc2 =>
            by_cases ht1 : w.tap_ok 1 <;> simp [ho, hL, ht0, hs1, hm1, ht1]
          | fail b2 =>
            by_cases ht1 : w.tap_ok 1 <;> simp [ho, hL, ht0, hs1, hm1, ht1]
        · simp [ho, hL, ht0, hs1]
      · simp [ho, hL, ht0]
  · simp [ho]

theorem follow_retry_none_iff (w : World) (url : String) :
    (FollowAction.execute_follow w url).1.retry_count = none ↔
    (FollowAction.execute_follow w url).1.error = some "FAILED_TO_OPEN_URL" := by
  unfold FollowAction.execute_follow
  by_cases ho : w.open_url_ok
  · by_cases ht : w.tap_ok 0 <;> simp [ho, ht]
  · simp [ho]

theorem comment_retry_none_iff (w : World) (url : String) :
    (CommentAction.execute_ai_comment w url).1.retry_count = none ↔
    ((CommentAction.execute_ai_comment w url).1.error = some "FAILED_TO_OPEN_URL" ∨
     (CommentAction.execute_ai_comment w url).1.error = some "SCREENSHOT_FAILED" ∨
     (CommentAction.execute_ai_comment w url).1.error = some "COMMENT_GENERATION_FAILED" ∨
     (CommentAction.execute_ai_comment w url).1.error = some "TAP_FAILED" ∨
     (CommentAction.execute_ai_comment w url).1.error = some "INPUT_FAILED" ∨
     (CommentAction.execute_ai_comment w url).1.error = some "POST_TAP_FAILED") := by
  unfold CommentAction.execute_ai_comment
  by_cases ho : w.open_url_ok
  · by_cases hs0 : w.screenshot_ok 0
    · rcases hg : w.gen_comment with _ | com
      · simp [ho, hs0, hg]
      · by_cases hcom : com = ""
        · simp [ho, hs0, hg, hcom]
        · rcases hL : retryLoop w "comment_button" CommentAction.TEMP_SCREENSHOT
              CommentAction.WAIT_AFTER_SCROLL CommentAction.MAX_RETRY 0 1 0 0 with ⟨out, tr, si, mi⟩
          cases out with
          | exhausted rc conf => simp [ho, hs0, hg, hcom, hL]
          | found x y c rc =>
            by_cases ht0 : w.tap_ok 0
            · by_cases hin : w.input_text_ok
              · by_cases ht1 : w.tap_ok 1 <;>
                  simp [ho, hs0, hg, hcom, hL, ht0, hin, ht1]
              · simp [ho, hs0, hg, hcom, hL, ht0, hin]
            · simp [ho, hs0, hg, hcom, hL, ht0]
    · simp [ho, hs0]
  · simp [ho]

/-- C3 (amended): retry-count reporting characterized per entry point: the
like, retweet and follow actions omit the retry_count field exactly on
FAILED_TO_OPEN_URL, and the comment action omits it also on
SCREENSHOT_FAILED, COMMENT_GENERATION_FAILED, TAP_FAILED, INPUT_FAILED and
POST_TAP_FAILED — so the *_NOT_FOUND and the like/retweet/follow tap errors
report it, but not every terminal error does. -/
theorem retry_count_reporting (w : World) (url : String) :
    ((LikeAction.execute_like w url).1.retry_count = none ↔
      (LikeAction.execute_like w url).1.error = some "FAILED_TO_OPEN_URL") ∧
    ((RetweetAction.execute_retweet w url).1.retry_count = none ↔
      (RetweetAction.execute_retweet w url).1.error = some "FAILED_TO_OPEN_URL") ∧
    ((FollowAction.execute_follow w url).1.retry_count = none ↔
      (FollowAction.execute_follow w url).1.error = some "FAILED_TO_OPEN_URL") ∧
    ((CommentAction.execute_ai_comment w url).1.retry_count = none ↔
      ((CommentAction.execute_ai_comment w url).1.error = some "FAILED_TO_OPEN_URL" ∨
       (CommentAction.execute_ai_comment w url).1.error = some "SCREENSHOT_FAILED" ∨
       (CommentAction.execute_ai_comment w url).1.error = some "COMMENT_GENERATION_FAILED" ∨
       (CommentAction.execute_ai_comment w url).1.error = some "TAP_FAILED" ∨
       (CommentAction.execute_ai_comment w url).1.error = some "INPUT_FAILED" ∨
       (CommentAction.execute_ai_comment w url).1.error = some "POST_TAP_FAILED")) :=
  ⟨like_retry_none_iff w url, retweet_retry_none_iff w url,
   follow_retry_none_iff w url, comment_retry_none_iff w url⟩

/-- Witness: the characterization applied at the concrete failed-navigation
oracle yields a concrete outcome with no retry_count field. -/
theorem retry_count_reporting_witness :
    (LikeAction.execute_like wOpenFail "u").1.retry_count = none :=
  (retry_count_reporting wOpenFail "u").1.mpr rfl

/-- C3 counterexample: the FAILED_TO_OPEN_URL outcome of the like action and
the TAP_FAILED outcome of the comment action contain no retry_count field,
refuting that every terminal error reports the retry count. -/
theorem retry_count_reporting_cex :
    (LikeAction.execute_like wOpenFail "u").1.error = some "FAILED_TO_OPEN_URL" ∧
    (LikeAction.execute_like wOpenFail "u").1.retry_count = none ∧
    (CommentAction.execute_ai_comment wCommentTapFail "u").1.error = some "TAP_FAILED" ∧
    (CommentAction.execute_ai_comment wCommentTapFail "u").1.retry_count = none :=
  ⟨rfl, rfl, rfl, rfl⟩
